import Mathlib

/-!
Verification of the OpenManus agent execution engine: a shallow embedding of
the state machine, think/act loop, tool dispatcher, stuck-loop detector and
remote tool-host bookkeeping from `src/app/agent/base.py`,
`src/app/agent/react.py`, `src/app/agent/toolcall.py` and
`src/app/tool/mcp_sandbox.py`, with theorems settling the spec's claims.
-/

namespace OpenManus

/-- AgentState enum (spec section 3; used throughout `app/agent/base.py`):
IDLE, RUNNING, FINISHED, ERROR. -/
inductive AgentState where
  | IDLE
  | RUNNING
  | FINISHED
  | ERROR
  deriving DecidableEq, Repr

/-- Message roles (spec section 3). -/
inductive Role where
  | system
  | user
  | assistant
  | tool
  deriving DecidableEq, Repr

/-- Decidable equality for `Except`, used by the derived instances of the
output structures below. -/
instance {e a : Type} [DecidableEq e] [DecidableEq a] : DecidableEq (Except e a) :=
  fun x y =>
  match x, y with
  | Except.ok u, Except.ok v =>
    if h : u = v then isTrue (congrArg Except.ok h)
    else isFalse (fun hc => h (Except.ok.inj hc))
  | Except.error u, Except.error v =>
    if h : u = v then isTrue (congrArg Except.error h)
    else isFalse (fun hc => h (Except.error.inj hc))
  | Except.ok _, Except.error _ => isFalse (fun hc => Except.noConfusion hc)
  | Except.error _, Except.ok _ => isFalse (fun hc => Except.noConfusion hc)

/-- The `function` member of a ToolCall: tool name and the serialized JSON
argument payload (`command.function.name`, `command.function.arguments`). -/
structure ToolCallFunction where
  name : String
  arguments : String
  deriving DecidableEq, Repr

/-- A ToolCall as consumed by the dispatcher: id plus function member. -/
structure ToolCall where
  id : String
  function : ToolCallFunction
  deriving DecidableEq, Repr

/-- Modelled from the spec: the Message record of spec section 3
(`app/schema.py` is not under src). role, nullable text content, attached
ToolCalls (assistant), tool_call_id and tool name (tool role), optional
image attachment. -/
structure Message where
  role : Role
  content : Option String
  tool_calls : List ToolCall
  tool_call_id : Option String
  name : Option String
  base64_image : Option String
  deriving DecidableEq, Repr

/-- `Message.user_message(content)`. -/
def Message.user_message (content : String) : Message :=
  ⟨Role.user, some content, [], none, none, none⟩

/-- `Message.system_message(content)`. -/
def Message.system_message (content : String) : Message :=
  ⟨Role.system, some content, [], none, none, none⟩

/-- `Message.assistant_message(content)`. -/
def Message.assistant_message (content : String) : Message :=
  ⟨Role.assistant, some content, [], none, none, none⟩

/-- `Message.from_tool_calls(content, tool_calls)`: assistant message carrying
the tool calls. -/
def Message.from_tool_calls (content : String) (tool_calls : List ToolCall) :
    Message :=
  ⟨Role.assistant, some content, tool_calls, none, none, none⟩

/-- `Message.tool_message(content, tool_call_id, name, base64_image)`. -/
def Message.tool_message (content : String) (tool_call_id : String)
    (name : String) (base64_image : Option String) : Message :=
  ⟨Role.tool, some content, [], some tool_call_id, some name, base64_image⟩

/-- Python truthiness of an optional string: `None` and `""` are falsy. -/
def optTruthy : Option String → Bool
  | none => false
  | some s => s != ""

/-- Python `str(x)` of an optional value rendered into an f-string:
`None` prints as "None". -/
def pyStrOpt : Option String → String
  | none => "None"
  | some s => s

/-- Python string slicing `s[:n]`, by characters. -/
def pySlice (s : String) (n : Nat) : String :=
  String.mk (s.data.take n)

/-- The mutable fields of `BaseAgent` that the run loop, the stuck detector
and the toolcall helpers read and write: lifecycle state, Memory (ordered
append-only message log, spec section 3 — `Memory.add_message` appends),
step counter and bound, the next-step guidance prompt and the stuck
threshold. -/
structure AgentCore where
  state : AgentState
  memory : List Message
  current_step : Nat
  max_steps : Nat
  next_step_prompt : Option String
  duplicate_threshold : Nat
  deriving DecidableEq, Repr

/-- `Memory.add_message`: append-only insertion (spec section 3). -/
def AgentCore.add_message (a : AgentCore) (m : Message) : AgentCore :=
  { a with memory := a.memory ++ [m] }

/-- `BaseAgent.is_stuck` (base.py lines 436-452): fewer than 2 messages or a
falsy latest content never count as stuck; otherwise count earlier
assistant messages whose content equals the latest content and compare with
`duplicate_threshold`. -/
def is_stuck (a : AgentCore) : Bool :=
  if a.memory.length < 2 then false
  else
    match a.memory.getLast? with
    | none => false
    | some last =>
      if optTruthy last.content then
        decide (a.duplicate_threshold ≤
          a.memory.dropLast.countP
            (fun m => decide (m.role = Role.assistant ∧ m.content = last.content)))
      else false

/-- The stuck prompt constant of `handle_stuck_state` (the Python literal uses
a line continuation, keeping the eight spaces of indentation). -/
def stuck_prompt : String :=
  "        Observed duplicate responses. Consider new strategies and avoid repeating ineffective paths already attempted."

/-- `BaseAgent.handle_stuck_state`: prepend the stuck prompt to the next-step
prompt (an f-string over the optional prompt, so `None` renders as "None"). -/
def handle_stuck_state (a : AgentCore) : AgentCore :=
  { a with next_step_prompt := some (stuck_prompt ++ "\n" ++ pyStrOpt a.next_step_prompt) }

/-- Tool-choice policies (`ToolChoice` in `app/schema.py`, values used by
`toolcall.py`). -/
inductive ToolChoice where
  | none
  | auto
  | required
  deriving DecidableEq, Repr

/-- A Python exception as `ask_tool`'s handler distinguishes it
(toolcall.py lines 204-219): whether it is a ValueError, whether its
`__cause__` is a TokenLimitExceeded, and its text. -/
structure PyError where
  isValueError : Bool
  causeIsTokenLimit : Bool
  message : String
  deriving DecidableEq, Repr

/-- The model response consumed by `ask_tool`: content (already normalised to
"" when absent, as line 224 does) and the tool-call batch. -/
structure LLMResponse where
  content : String
  tool_calls : List ToolCall
  deriving DecidableEq, Repr

/-- The value a tool execution produces, as the dispatcher inspects it:
`str(result)`, the truthiness of the result object, and its
`base64_image` attribute if any. -/
structure ToolResultVal where
  toStr : String
  truthy : Bool
  base64_image : Option String
  deriving DecidableEq, Repr

/-- Outcome of `await self.available_tools.execute(...)`: a raised exception
(caught at toolcall.py line 401) or a result value. -/
inductive ToolOutcome where
  | raised (msg : String)
  | ok (r : ToolResultVal)
  deriving DecidableEq, Repr

/-- The dispatcher's environment: the keys of `available_tools.tool_map`,
whether `json.loads` accepts a given argument text, and the tool execution
itself (name and raw argument text to outcome). -/
structure ToolEnv where
  tool_names : List String
  validJson : String → Bool
  run : String → String → ToolOutcome

/-- The `ToolCallContextHelper` fields the dispatcher reads
(toolcall.py lines 147-163): tool-choice policy, the terminating
(special) tool names, the current tool-call batch, and the observation
length bound (default 10000, falsy 0 disables truncation). -/
structure ToolCallHelper where
  tool_choices : ToolChoice
  special_tool_names : List String
  tool_calls : List ToolCall
  max_observe : Nat := 10000
  deriving DecidableEq, Repr

/-- Python `str.lower`, by characters. -/
def pyLower (s : String) : String :=
  String.mk (s.data.map Char.toLower)

/-- `ToolCallContextHelper._is_special_tool`: case-insensitive membership in
the special tool names. -/
def is_special_tool (special_tool_names : List String) (name : String) : Bool :=
  (special_tool_names.map pyLower).contains (pyLower name)

/-- What one `execute_tool_command` call returns and does: the observation
string, the image stored into `_current_base64_image`, the agent state after
`handle_special_tool`, and the names for which a TOOL_EXECUTE_START event was
emitted (the tools actually invoked). -/
structure CommandOut where
  observation : String
  image : Option String
  state : AgentState
  invoked : List String
  deriving DecidableEq, Repr

/-- `ToolCallContextHelper.execute_tool_command` (toolcall.py lines 341-404):
invalid command format and unknown tool produce error observations; the
argument payload is parsed (an empty payload falls back to "{}", which always
parses); a raised tool exception is caught into an error observation;
`handle_special_tool` transitions the state to FINISHED for a special tool;
the observation is formatted from the result's truthiness, and a truthy
`base64_image` is kept for the tool message. -/
def execute_tool_command (env : ToolEnv) (special_tool_names : List String)
    (command : ToolCall) (st : AgentState) : CommandOut :=
  if command.function.name = "" then
    ⟨"Error: Invalid command format", none, st, []⟩
  else
    let name := command.function.name
    if env.tool_names.contains name = false then
      ⟨s!"Error: Unknown tool '{name}'", none, st, []⟩
    else
      let raw := if command.function.arguments = "" then "\x7b\x7d"
        else command.function.arguments
      let parsedOk := if command.function.arguments = "" then true
        else env.validJson command.function.arguments
      if parsedOk = false then
        ⟨s!"Error: Error parsing arguments for {name}: Invalid JSON format",
          none, st, []⟩
      else
        match env.run name raw with
        | ToolOutcome.raised msg =>
          ⟨s!"Error: ⚠️ Tool '{name}' encountered a problem: {msg}",
            none, st, [name]⟩
        | ToolOutcome.ok r =>
          let st2 := if is_special_tool special_tool_names name then
            AgentState.FINISHED else st
          let image := match r.base64_image with
            | some b => if b != "" then some b else none
            | none => none
          let rs := r.toStr
          let observation :=
            if r.truthy then s!"Observed output of cmd `{name}` executed:\n{rs}"
            else s!"Cmd `{name}` completed with no output"
          ⟨observation, image, st2, [name]⟩

/-- What the Act phase (`execute_tool`) can return: the last message's content
(no-tool-calls branch returns a plain string) or the list of observation
strings of the batch branch. -/
inductive ActReturn where
  | lastContent (s : String)
  | results (rs : List String)
  deriving DecidableEq, Repr

/-- The exceptions that can propagate through `step` and `run`: the
invalid-state RuntimeError of `run`, a Python exception propagated out of
think (from `llm.ask_tool`, or the TOOL_SELECTED payload's JSONDecodeError),
the dispatcher's ValueError(TOOL_CALL_REQUIRED), and the IndexError of
indexing an empty Memory. -/
inductive RunError where
  | runtime (msg : String)
  | llm (e : PyError)
  | valueError (msg : String)
  | indexError (msg : String)
  deriving DecidableEq, Repr

/-- The `TOOL_CALL_REQUIRED` constant (toolcall.py line 21). -/
def TOOL_CALL_REQUIRED : String := "Tool calls required but none provided"

/-- Net effect of `execute_tool` on the agent plus its return value:
memory and state after the batch, the invoked tool names (the emitted
TOOL_EXECUTE_START events), and the returned value or raised exception. -/
structure ActOut where
  memory : List Message
  state : AgentState
  invoked : List String
  ret : Except RunError ActReturn
  deriving DecidableEq, Repr

/-- The body of `execute_tool`'s `for command in self.tool_calls` loop:
execute the command (state transitions happen inside
`execute_tool_command`), truncate the observation when `max_observe` is
truthy, then append the tool message to Memory and collect the result. -/
def execute_tool_loop (env : ToolEnv) (special_tool_names : List String)
    (max_observe : Nat) :
    List ToolCall → List Message → AgentState → List String → List String →
      List Message × AgentState × List String × List String
  | [], mem, st, inv, results => (mem, st, inv, results)
  | command :: rest, mem, st, inv, results =>
    let out := execute_tool_command env special_tool_names command st
    let result := if max_observe ≠ 0 then pySlice out.observation max_observe
      else out.observation
    let tool_msg := Message.tool_message result command.id
      command.function.name out.image
    execute_tool_loop env special_tool_names max_observe rest
      (mem ++ [tool_msg]) out.state (inv ++ out.invoked) (results ++ [result])

/-- `ToolCallContextHelper.execute_tool` (toolcall.py lines 299-339): an empty
batch raises ValueError(TOOL_CALL_REQUIRED) under the "required" policy and
otherwise returns the last message's content (Python's `or` supplies the
sentinel for falsy content; indexing an empty Memory raises IndexError);
a non-empty batch runs every call in order, appending one tool message per
call. -/
def execute_tool (env : ToolEnv) (h : ToolCallHelper)
    (mem : List Message) (st : AgentState) : ActOut :=
  if h.tool_calls.isEmpty then
    if h.tool_choices = ToolChoice.required then
      ⟨mem, st, [], Except.error (RunError.valueError TOOL_CALL_REQUIRED)⟩
    else
      match mem.getLast? with
      | some m =>
        ⟨mem, st, [], Except.ok (ActReturn.lastContent
          (if optTruthy m.content then pyStrOpt m.content
           else "No content or commands to execute"))⟩
      | none =>
        ⟨mem, st, [],
          Except.error (RunError.indexError "list index out of range")⟩
  else
    let out := execute_tool_loop env h.special_tool_names h.max_observe
      h.tool_calls mem st [] []
    ⟨out.1, out.2.1, out.2.2.1, Except.ok (ActReturn.results out.2.2.2)⟩

/-- A Memory-and-state configuration observed while the dispatcher runs. -/
structure DispatchConfig where
  memory : List Message
  state : AgentState
  deriving DecidableEq, Repr

/-- The configurations the dispatcher's loop passes through, in source order:
for each call, first the configuration right after
`result = await self.execute_tool_command(command)` returns (the state
transition of `handle_special_tool` is complete, Memory untouched), then the
configuration right after `self.agent.memory.add_message(tool_msg)`. -/
def execute_tool_configs (env : ToolEnv) (special_tool_names : List String)
    (max_observe : Nat) :
    List ToolCall → DispatchConfig → List DispatchConfig
  | [], _ => []
  | command :: rest, c =>
    let out := execute_tool_command env special_tool_names command c.state
    let result := if max_observe ≠ 0 then pySlice out.observation max_observe
      else out.observation
    let tool_msg := Message.tool_message result command.id
      command.function.name out.image
    let afterExec : DispatchConfig := ⟨c.memory, out.state⟩
    let afterAppend : DispatchConfig := ⟨c.memory ++ [tool_msg], out.state⟩
    afterExec :: afterAppend ::
      execute_tool_configs env special_tool_names max_observe rest afterAppend

/-- The per-call outputs of the dispatcher's loop, derived for stating the
ordering law: the tool messages appended (in call order), the final state,
the invoked tool names and the (truncated) observation strings. -/
def dispatch_outcome (env : ToolEnv) (special_tool_names : List String)
    (max_observe : Nat) :
    List ToolCall → AgentState →
      List Message × AgentState × List String × List String
  | [], st => ([], st, [], [])
  | command :: rest, st =>
    let out := execute_tool_command env special_tool_names command st
    let result := if max_observe ≠ 0 then pySlice out.observation max_observe
      else out.observation
    let tail := dispatch_outcome env special_tool_names max_observe rest out.state
    (Message.tool_message result command.id command.function.name out.image
        :: tail.1,
      tail.2.1, out.invoked ++ tail.2.2.1, result :: tail.2.2.2)

/-- The result of `ask_tool`: helper and agent after the think phase, plus the
returned Bool or the propagated exception. -/
structure ThinkOut where
  helper : ToolCallHelper
  agent : AgentCore
  ret : Except PyError Bool
  deriving DecidableEq, Repr

/-- The first lines of `ask_tool` (toolcall.py lines 188-190): a truthy
`next_step_prompt` is appended to Memory as a user message. -/
def prompt_append (a0 : AgentCore) : AgentCore :=
  match a0.next_step_prompt with
  | some p => if p != "" then a0.add_message (Message.user_message p) else a0
  | none => a0

/-- The JSONDecodeError that `json.loads(call.function.arguments)` raises in
the TOOL_SELECTED emit payload (toolcall.py lines 235-246): a subclass of
ValueError, raised directly so its `__cause__` is None. -/
def json_decode_error : PyError :=
  ⟨true, false, "Expecting value: line 1 column 1 (char 0)"⟩

/-- `ToolCallContextHelper.ask_tool` (toolcall.py lines 186-297), with the
model invocation's outcome passed in. A truthy next-step prompt is appended
as a user message; a ValueError from the model call is re-raised; other
exceptions whose `__cause__` is TokenLimitExceeded append a terminal
assistant message, set the state to FINISHED and return false; remaining
exceptions propagate. On a response, the helper's batch is recorded (line
221) and then the TOOL_SELECTED emit payload (lines 231-248) evaluates
`json.loads(call.function.arguments)` for every tool call, outside any try
and before the policy branch: a malformed (or empty-string) argument payload
raises JSONDecodeError out of `ask_tool` at that point, leaving Memory
untouched. Otherwise the three tool-choice policies decide the appended
assistant message and the returned Bool. -/
def ask_tool (env : ToolEnv) (resp : Except PyError LLMResponse)
    (h : ToolCallHelper) (a0 : AgentCore) : ThinkOut :=
  let a := prompt_append a0
  match resp with
  | Except.error e =>
    if e.isValueError then ⟨h, a, Except.error e⟩
    else if e.causeIsTokenLimit then
      ⟨h,
        { a.add_message (Message.assistant_message
            ("Maximum token limit reached, cannot continue execution: "
              ++ e.message)) with
          state := AgentState.FINISHED },
        Except.ok false⟩
    else ⟨h, a, Except.error e⟩
  | Except.ok response =>
    let tool_calls := response.tool_calls
    let content := response.content
    let h2 := { h with tool_calls := tool_calls }
    if !tool_calls.all (fun call => env.validJson call.function.arguments)
    then
      ⟨h2, a, Except.error json_decode_error⟩
    else if h2.tool_choices = ToolChoice.none then
      if content != "" then
        ⟨h2, a.add_message (Message.assistant_message content), Except.ok true⟩
      else ⟨h2, a, Except.ok false⟩
    else
      let assistant_msg := if tool_calls.isEmpty then
          Message.assistant_message content
        else Message.from_tool_calls content tool_calls
      let a2 := a.add_message assistant_msg
      if h2.tool_choices = ToolChoice.required ∧ tool_calls.isEmpty then
        ⟨h2, a2, Except.ok true⟩
      else if h2.tool_choices = ToolChoice.auto ∧ tool_calls.isEmpty then
        ⟨h2, a2, Except.ok (content != "")⟩
      else ⟨h2, a2, Except.ok (!tool_calls.isEmpty)⟩

/-- `"\n\n".join(x)` when `x` is a Python str: joins its characters. -/
def pyJoinChars (sep : String) (s : String) : String :=
  String.intercalate sep (s.data.map (fun c => String.mk [c]))

/-- `ToolCallAgent.act`'s join of `execute_tool`'s return value. -/
def act_result : ActReturn → String
  | ActReturn.results rs => String.intercalate "\n\n" rs
  | ActReturn.lastContent s => pyJoinChars "\n\n" s

/-- Lift the dispatcher's return into the step's result. -/
def act_return (o : ActOut) : Except RunError String :=
  match o.ret with
  | Except.error e => Except.error e
  | Except.ok r => Except.ok (act_result r)

/-- The fixed short-circuit result of `ReActAgent.step` (react.py line 80). -/
def THINKING_COMPLETE : String := "Thinking complete - no action needed"

/-- Result of one `step`: updated helper, updated agent, result string or
propagated exception. -/
structure StepOut where
  helper : ToolCallHelper
  agent : AgentCore
  ret : Except RunError String
  deriving DecidableEq, Repr

/-- `ReActAgent.step` (react.py lines 59-100) over the toolcall helpers:
think; when think signals no action and no pending termination is in effect,
short-circuit with the fixed result; otherwise act. `should_terminate` is the
pending-termination flag (modelled from the spec's terminate() interface; its
definition is outside the files under src). Token accounting is
observability-only and carries no control flow. -/
def step (resp : Except PyError LLMResponse) (env : ToolEnv)
    (should_terminate : Bool) (h : ToolCallHelper) (a : AgentCore) : StepOut :=
  let t := ask_tool env resp h a
  match t.ret with
  | Except.error e => ⟨t.helper, t.agent, Except.error (RunError.llm e)⟩
  | Except.ok should_act =>
    if !should_act && !should_terminate then
      ⟨t.helper, t.agent, Except.ok THINKING_COMPLETE⟩
    else
      let o := execute_tool env t.helper t.agent.memory t.agent.state
      ⟨t.helper, { t.agent with memory := o.memory, state := o.state },
        act_return o⟩

/-- A step as `BaseAgent.run` consumes it: the helper is rebuilt by think on
every step, so only the agent threads through the loop. -/
def toolcall_step (resp : Except PyError LLMResponse) (env : ToolEnv)
    (should_terminate : Bool) (h : ToolCallHelper) :
    AgentCore → AgentCore × Except RunError String :=
  fun a =>
    ((step resp env should_terminate h a).agent,
      (step resp env should_terminate h a).ret)

/-- The `while` loop of `BaseAgent.run` (base.py lines 311-327), with fuel for
termination: while `current_step < max_steps` and the state is not FINISHED,
increment the counter, run one step (an exception propagates), run the stuck
check, and accumulate the per-step result line. -/
def runLoop (stepFn : AgentCore → AgentCore × Except RunError String) :
    Nat → AgentCore → List String → AgentCore × Except RunError (List String)
  | 0, a, acc => (a, Except.ok acc)
  | Nat.succ fuel, a, acc =>
    if a.current_step < a.max_steps ∧ a.state ≠ AgentState.FINISHED then
      let a1 := { a with current_step := a.current_step + 1 }
      match stepFn a1 with
      | (a2, Except.error e) => (a2, Except.error e)
      | (a2, Except.ok step_result) =>
        let a3 := if is_stuck a2 then handle_stuck_state a2 else a2
        let n := a3.current_step
        runLoop stepFn fuel a3 (acc ++ [s!"Step {n}: {step_result}"])
    else (a, Except.ok acc)

/-- `BaseAgent.state_context` (base.py lines 214-250): record the previous
state, enter the new state, run the body; on an exception set ERROR (and
emit) before the `finally` block; the `finally` block unconditionally reverts
the state to the previous state on every exit path. -/
def state_context (a : AgentCore) (new_state : AgentState)
    (body : AgentCore → AgentCore × Except RunError (List String)) :
    AgentCore × Except RunError (List String) :=
  let previous_state := a.state
  let a1 := { a with state := new_state }
  match body a1 with
  | (a2, Except.ok r) => ({ a2 with state := previous_state }, Except.ok r)
  | (a2, Except.error e) =>
    let a3 := { a2 with state := AgentState.ERROR }
    ({ a3 with state := previous_state }, Except.error e)

/-- Lines 306-307 of `BaseAgent.run`: a truthy request is appended to Memory
as a user message (`update_memory("user", request)`). -/
def request_append (a0 : AgentCore) (request : Option String) : AgentCore :=
  match request with
  | some r => if r != "" then a0.add_message (Message.user_message r) else a0
  | none => a0

/-- Python rendering of the state in run's RuntimeError message. -/
def AgentState.pyStr : AgentState → String
  | AgentState.IDLE => "AgentState.IDLE"
  | AgentState.RUNNING => "AgentState.RUNNING"
  | AgentState.FINISHED => "AgentState.FINISHED"
  | AgentState.ERROR => "AgentState.ERROR"

/-- The body of `run`'s RUNNING scoped transition (base.py lines 310-333):
run the loop; if the counter reached `max_steps`, reset it, force IDLE and
append the termination notice. The sandbox cleanup and event emissions have
no effect on the modelled state. -/
def run_body (stepFn : AgentCore → AgentCore × Except RunError String) :
    AgentCore → AgentCore × Except RunError (List String) :=
  fun b =>
    match runLoop stepFn b.max_steps b [] with
    | (b1, Except.error e) => (b1, Except.error e)
    | (b1, Except.ok results) =>
      if b1.max_steps ≤ b1.current_step then
        let m := b1.max_steps
        ({ b1 with current_step := 0, state := AgentState.IDLE },
          Except.ok (results ++ [s!"Terminated: Reached max steps ({m})"]))
      else (b1, Except.ok results)

/-- `BaseAgent.run` (base.py lines 289-336): fail fast unless IDLE; append a
truthy request as a user message; inside the RUNNING scoped transition run
the loop body above; return the joined per-step results or the sentinel. -/
def run (stepFn : AgentCore → AgentCore × Except RunError String)
    (a0 : AgentCore) (request : Option String) :
    AgentCore × Except RunError String :=
  if a0.state ≠ AgentState.IDLE then
    (a0, Except.error (RunError.runtime
      ("Cannot run agent from state: " ++ a0.state.pyStr)))
  else
    let a := request_append a0 request
    let out := state_context a AgentState.RUNNING (run_body stepFn)
    (out.1, out.2.map (fun results =>
      if results.isEmpty then "No steps executed"
      else String.intercalate "\n" results))

/-- A remote tool proxy (`MCPSandboxClientTool`): prefixed name and the
owning client id. -/
structure MCPClientTool where
  name : String
  client_id : String
  deriving DecidableEq, Repr

/-- The per-client tool collection (`MCPSandboxClients`): client id, whether a
session is live, and its own registry of prefixed tools. -/
structure MCPClients where
  client_id : String
  session : Bool
  tool_map : List (String × MCPClientTool)
  deriving DecidableEq, Repr

/-- `MCPSandboxClients._initialize_and_list_tools` (mcp_sandbox.py lines
345-388): clear the collection and register each remote tool under the
`<client_id>-<tool name>` composite name. -/
def initialize_and_list_tools (c : MCPClients) (server_tools : List String) :
    MCPClients :=
  { c with
    session := true,
    tool_map := server_tools.map (fun t =>
      (c.client_id ++ "-" ++ t, ⟨c.client_id ++ "-" ++ t, c.client_id⟩)) }

/-- `MCPSandboxClients.disconnect` (mcp_sandbox.py lines 390-397): when a
session is live, close it and clear the client's own tools and tool_map;
otherwise do nothing. -/
def MCPClients.disconnect (c : MCPClients) : MCPClients :=
  if c.session then { c with session := false, tool_map := [] } else c

/-- `MCPToolCallExtension` (toolcall.py lines 33-144): the client_id-keyed
dictionary of connected clients. -/
structure MCPToolCallExtension where
  clients : List (String × MCPClients)
  deriving DecidableEq, Repr

/-- `MCPToolCallExtension.remove_client` (toolcall.py lines 103-115):
`self.clients.pop(client_id, None)`; a found client is disconnected and True
returned, otherwise False and nothing changes. The popped client object is
disconnected and dropped; the extension's dictionary loses only that key. -/
def remove_client (ext : MCPToolCallExtension) (client_id : String) :
    MCPToolCallExtension × Bool :=
  match ext.clients.lookup client_id with
  | some _ => (⟨ext.clients.eraseP (fun p => p.1 == client_id)⟩, true)
  | none => (ext, false)

/-- Modelled from the spec: ToolRegistry registration (spec section 4.5;
`app/tool/tool_collection.py` is not under src). `add_tool` registers the
tool keyed by its (already prefixed) unique name. -/
def register_tool (reg : List (String × MCPClientTool)) (t : MCPClientTool) :
    List (String × MCPClientTool) :=
  reg ++ [(t.name, t)]

/-- `ToolCallContextHelper.add_mcp` for an SSE host (toolcall.py lines
169-176) combined with `add_sse_client` (lines 47-66): a duplicate client id
raises ValueError; otherwise connect (the handshake enumerates
`server_tools`, registered prefixed per `_initialize_and_list_tools`), store
the client, and add every tool of the client's map to `available_tools`. -/
def add_mcp_sse (ext : MCPToolCallExtension)
    (reg : List (String × MCPClientTool)) (client_id : String)
    (server_tools : List String) :
    Except String (MCPToolCallExtension × List (String × MCPClientTool)) :=
  if (ext.clients.lookup client_id).isSome then
    Except.error s!"Client ID '{client_id}' already exists"
  else
    let client := initialize_and_list_tools ⟨client_id, false, []⟩ server_tools
    let ext2 : MCPToolCallExtension := ⟨ext.clients ++ [(client_id, client)]⟩
    let reg2 := client.tool_map.foldl (fun r p => register_tool r p.2) reg
    Except.ok (ext2, reg2)

/-! Concrete fixtures used by witnesses and counterexamples. -/

/-- A small dispatcher environment: a `terminate` and an `echo` tool, every
payload parses, every execution succeeds. -/
def c2_env : ToolEnv :=
  ⟨["terminate", "echo"], fun _ => true,
    fun name _ => ToolOutcome.ok ⟨"done " ++ name, true, none⟩⟩

/-- A terminating call fixture. -/
def c2_term : ToolCall := ⟨"call-1", ⟨"terminate", ""⟩⟩

/-- A non-terminating call fixture following the terminating one. -/
def c2_echo : ToolCall := ⟨"call-2", ⟨"echo", ""⟩⟩

/-- Helper fixture whose batch is the two-call batch above. -/
def c2_helper : ToolCallHelper :=
  ⟨ToolChoice.auto, ["terminate"], [c2_term, c2_echo], 10000⟩

/-- Environment with only a `terminate` tool registered. -/
def c3_env : ToolEnv :=
  ⟨["terminate"], fun _ => true,
    fun _ _ => ToolOutcome.ok ⟨"ok", true, none⟩⟩

/-- Helper fixture under the "required" policy with an empty batch. -/
def c3_helper : ToolCallHelper := ⟨ToolChoice.required, ["terminate"], [], 10000⟩

/-- A model response carrying no tool calls. -/
def c3_resp : LLMResponse := ⟨"I could not find a tool", []⟩

/-- A fresh IDLE agent allowing three steps. -/
def c3_agent : AgentCore := ⟨AgentState.IDLE, [], 0, 3, none, 2⟩

/-- Helper fixture under the default "auto" policy with an empty batch. -/
def c4_helper : ToolCallHelper := ⟨ToolChoice.auto, ["terminate"], [], 10000⟩

/-- A RUNNING agent mid-run. -/
def c4_agent : AgentCore := ⟨AgentState.RUNNING, [], 1, 5, none, 2⟩

/-- Environment whose JSON check accepts only the empty object payload. -/
def c7_env : ToolEnv :=
  ⟨["terminate"], fun s => s == "\x7b\x7d",
    fun _ _ => ToolOutcome.ok ⟨"ok", true, none⟩⟩

/-- Environment whose tool produces a long observation. -/
def c8_env : ToolEnv :=
  ⟨["echo"], fun _ => true,
    fun _ _ => ToolOutcome.ok ⟨"abcdefgh", true, none⟩⟩

/-- A call to the `echo` tool of `c8_env`. -/
def c8_call : ToolCall := ⟨"call-8", ⟨"echo", ""⟩⟩

/-- Helper fixture with a 3-character observation bound. -/
def c8_helper : ToolCallHelper := ⟨ToolChoice.auto, [], [c8_call], 3⟩

/-! Helper lemmas. -/

lemma add_message_state (a : AgentCore) (m : Message) :
    (a.add_message m).state = a.state := rfl

lemma prompt_append_state (a : AgentCore) :
    (prompt_append a).state = a.state := by
  unfold prompt_append
  cases a.next_step_prompt with
  | none => rfl
  | some p => by_cases hp : p != "" <;> simp [hp, add_message_state]

lemma request_append_state (a : AgentCore) (request : Option String) :
    (request_append a request).state = a.state := by
  unfold request_append
  cases request with
  | none => rfl
  | some r => by_cases hr : r != "" <;> simp [hr, add_message_state]

lemma state_context_fst_state (a : AgentCore) (ns : AgentState)
    (body : AgentCore → AgentCore × Except RunError (List String)) :
    (state_context a ns body).1.state = a.state := by
  unfold state_context
  rcases hb : body { a with state := ns } with ⟨a2, r⟩
  cases r <;> simp [hb]

lemma pySlice_length (s : String) (n : Nat) :
    (pySlice s n).length = min n s.length := by
  cases s with
  | mk l => simp [pySlice, String.length]

lemma pySlice_append (s : String) (n : Nat) :
    pySlice s n ++ String.mk (s.data.drop n) = s := by
  cases s with
  | mk l => exact congrArg String.mk (List.take_append_drop n l)

lemma pySlice_of_length_le (s : String) (n : Nat) (hle : s.length ≤ n) :
    pySlice s n = s := by
  cases s with
  | mk l =>
    simp only [String.length] at hle
    exact congrArg String.mk (List.take_of_length_le hle)

/-! Claim theorems. -/

/-- C1: every `run` invocation that starts in IDLE leaves the agent's
observable state neither RUNNING nor ERROR after `run` returns or raises:
`state_context` records the previous state on entry and reverts to it on
every exit path, so the final state is the IDLE the run started from,
whatever the step function does or raises. -/
theorem C1_run_state_invariant
    (stepFn : AgentCore → AgentCore × Except RunError String)
    (a : AgentCore) (request : Option String)
    (h : a.state = AgentState.IDLE) :
    (run stepFn a request).1.state = AgentState.IDLE ∧
    (run stepFn a request).1.state ≠ AgentState.RUNNING ∧
    (run stepFn a request).1.state ≠ AgentState.ERROR := by
  have hmain : (run stepFn a request).1.state = AgentState.IDLE := by
    unfold run
    rw [if_neg (by simp [h])]
    show (state_context (request_append a request) AgentState.RUNNING _).1.state
      = AgentState.IDLE
    rw [state_context_fst_state, request_append_state, h]
  exact ⟨hmain, by rw [hmain]; simp, by rw [hmain]; simp⟩

/-- Witness for C1 at a concrete agent and step function. -/
theorem C1_run_state_invariant_witness :
    (run (fun a => (a, Except.ok "step result"))
        ⟨AgentState.IDLE, [], 0, 1, none, 2⟩ none).1.state = AgentState.IDLE :=
  (C1_run_state_invariant (fun a => (a, Except.ok "step result"))
    ⟨AgentState.IDLE, [], 0, 1, none, 2⟩ none rfl).1

/-- C4: when Think signals "no action needed" and no pending termination is in
effect, `step` short-circuits with the fixed "thinking complete" result and
Act is not invoked (the step's outcome is exactly Think's outcome); otherwise
`step` performs Act on Think's output and returns Act's result. -/
theorem C4_step_short_circuit (resp : Except PyError LLMResponse)
    (env : ToolEnv) (should_terminate : Bool) (h : ToolCallHelper)
    (a : AgentCore) :
    (∀ h2 a2, ask_tool env resp h a = ⟨h2, a2, Except.ok false⟩ →
      should_terminate = false →
      step resp env should_terminate h a =
        ⟨h2, a2, Except.ok THINKING_COMPLETE⟩) ∧
    (∀ h2 a2 sa, ask_tool env resp h a = ⟨h2, a2, Except.ok sa⟩ →
      sa = true ∨ should_terminate = true →
      step resp env should_terminate h a =
        ⟨h2,
          { a2 with
            memory := (execute_tool env h2 a2.memory a2.state).memory,
            state := (execute_tool env h2 a2.memory a2.state).state },
          act_return (execute_tool env h2 a2.memory a2.state)⟩) := by
  constructor
  · intro h2 a2 hthink hst
    unfold step
    rw [hthink]
    subst hst
    simp
  · intro h2 a2 sa hthink hcase
    unfold step
    rw [hthink]
    rcases hcase with hsa | hst
    · subst hsa; simp
    · subst hst; cases sa <;> simp

/-- Witness for C4: a think that returns false under the auto policy (empty
content, no tool calls) short-circuits the step. -/
theorem C4_step_short_circuit_witness :
    step (Except.ok ⟨"", []⟩) c3_env false c4_helper c4_agent =
      ⟨{ c4_helper with tool_calls := [] },
        c4_agent.add_message (Message.assistant_message ""),
        Except.ok THINKING_COMPLETE⟩ :=
  (C4_step_short_circuit (Except.ok ⟨"", []⟩) c3_env false c4_helper c4_agent).1
    { c4_helper with tool_calls := [] }
    (c4_agent.add_message (Message.assistant_message "")) rfl rfl

/-- C7: a ToolCall whose name is not in the registry yields an error
observation without raising (an empty name hits the invalid-format branch,
any other unknown name the unknown-tool branch), and a ToolCall whose
payload is not valid JSON yields an error observation without raising and
without invoking the tool (empty invocation list). -/
theorem C7_dispatch_errors (env : ToolEnv) (special : List String)
    (c : ToolCall) (st : AgentState) :
    (c.function.name = "" →
      execute_tool_command env special c st =
        ⟨"Error: Invalid command format", none, st, []⟩) ∧
    (c.function.name ≠ "" →
      env.tool_names.contains c.function.name = false →
      execute_tool_command env special c st =
        ⟨s!"Error: Unknown tool '{c.function.name}'", none, st, []⟩) ∧
    (c.function.name ≠ "" →
      env.tool_names.contains c.function.name = true →
      c.function.arguments ≠ "" →
      env.validJson c.function.arguments = false →
      execute_tool_command env special c st =
        ⟨s!"Error: Error parsing arguments for {c.function.name}: Invalid JSON format",
          none, st, []⟩) := by
  refine ⟨?_, ?_, ?_⟩
  · intro h1
    unfold execute_tool_command
    rw [if_pos h1]
  · intro h1 h2
    unfold execute_tool_command
    rw [if_neg h1, if_pos h2]
  · intro h1 h2 h3 h4
    unfold execute_tool_command
    rw [if_neg h1, if_neg (by rw [h2]; simp), h4]
    simp [h3]

/-- Witness for C7: an unknown tool and a malformed payload at concrete
inputs. -/
theorem C7_dispatch_errors_witness :
    execute_tool_command c7_env [] ⟨"id1", ⟨"ghost", "\x7b\x7d"⟩⟩
        AgentState.RUNNING =
      ⟨"Error: Unknown tool 'ghost'", none, AgentState.RUNNING, []⟩ ∧
    execute_tool_command c7_env [] ⟨"id2", ⟨"terminate", "not json"⟩⟩
        AgentState.RUNNING =
      ⟨"Error: Error parsing arguments for terminate: Invalid JSON format",
        none, AgentState.RUNNING, []⟩ :=
  ⟨(C7_dispatch_errors c7_env [] ⟨"id1", ⟨"ghost", "\x7b\x7d"⟩⟩
      AgentState.RUNNING).2.1 (by decide) (by decide),
    (C7_dispatch_errors c7_env [] ⟨"id2", ⟨"terminate", "not json"⟩⟩
      AgentState.RUNNING).2.2 (by decide) (by decide) (by decide) (by decide)⟩

/-- C8: when the helper's configured bound is positive, a single-call batch
records exactly the `max_observe`-truncated observation; an observation
longer than the bound is recorded with length exactly `max_observe` and as a
prefix of the untruncated text, while an observation within the bound is
recorded unchanged. -/
theorem C8_truncation (env : ToolEnv) (h : ToolCallHelper)
    (mem : List Message) (st : AgentState) (c : ToolCall)
    (hM : 0 < h.max_observe) (hc : h.tool_calls = [c]) :
    (execute_tool env h mem st).memory =
      mem ++ [Message.tool_message
        (pySlice (execute_tool_command env h.special_tool_names c st).observation
          h.max_observe)
        c.id c.function.name
        (execute_tool_command env h.special_tool_names c st).image] ∧
    (h.max_observe <
        (execute_tool_command env h.special_tool_names c st).observation.length →
      (pySlice (execute_tool_command env h.special_tool_names c st).observation
          h.max_observe).length = h.max_observe ∧
      ∃ rest,
        (execute_tool_command env h.special_tool_names c st).observation =
          pySlice
            (execute_tool_command env h.special_tool_names c st).observation
            h.max_observe ++ rest) ∧
    ((execute_tool_command env h.special_tool_names c st).observation.length ≤
        h.max_observe →
      pySlice (execute_tool_command env h.special_tool_names c st).observation
        h.max_observe =
      (execute_tool_command env h.special_tool_names c st).observation) := by
  refine ⟨?_, ?_, ?_⟩
  · unfold execute_tool
    rw [hc]
    simp [execute_tool_loop, Nat.pos_iff_ne_zero.mp hM]
  · intro hlong
    constructor
    · rw [pySlice_length]
      exact Nat.min_eq_left (Nat.le_of_lt hlong)
    · exact ⟨String.mk ((execute_tool_command env h.special_tool_names c
        st).observation.data.drop h.max_observe),
        (pySlice_append _ _).symm⟩
  · intro hshort
    exact pySlice_of_length_le _ _ hshort

/-- Witness for C8: a 3-character bound truncates the 45-character
observation to exactly 3 characters. -/
theorem C8_truncation_witness :
    (pySlice (execute_tool_command c8_env [] c8_call
        AgentState.RUNNING).observation 3).length = 3 :=
  ((C8_truncation c8_env c8_helper [] AgentState.RUNNING c8_call
    (by decide) rfl).2.1 (by decide)).1

lemma prompt_append_assistant_countP (a : AgentCore) :
    (prompt_append a).memory.countP (fun m => decide (m.role = Role.assistant)) =
      a.memory.countP (fun m => decide (m.role = Role.assistant)) := by
  unfold prompt_append
  cases a.next_step_prompt with
  | none => rfl
  | some p =>
    by_cases hp : p != ""
    · simp [hp, AgentCore.add_message, List.countP_append, List.countP_cons,
        Message.user_message]
    · simp [hp]

/-- C5 under correction: a model-invocation error that is not a ValueError and
whose `__cause__` is a TokenLimitExceeded is swallowed: think returns false,
the state transitions directly to FINISHED, the helper is untouched, exactly
one new assistant Message is appended and it is the terminal message
describing the limit. -/
theorem C5_token_limit_amended (env : ToolEnv) (e : PyError)
    (h : ToolCallHelper) (a : AgentCore) (hv : e.isValueError = false)
    (hc : e.causeIsTokenLimit = true) :
    (ask_tool env (Except.error e) h a).ret = Except.ok false ∧
    (ask_tool env (Except.error e) h a).agent.state = AgentState.FINISHED ∧
    (ask_tool env (Except.error e) h a).helper = h ∧
    (ask_tool env (Except.error e) h a).agent.memory.countP
        (fun m => decide (m.role = Role.assistant)) =
      a.memory.countP (fun m => decide (m.role = Role.assistant)) + 1 ∧
    (ask_tool env (Except.error e) h a).agent.memory.getLast? =
      some (Message.assistant_message
        ("Maximum token limit reached, cannot continue execution: "
          ++ e.message)) := by
  have hform : ask_tool env (Except.error e) h a =
      ⟨h,
        { (prompt_append a).add_message (Message.assistant_message
            ("Maximum token limit reached, cannot continue execution: "
              ++ e.message)) with
          state := AgentState.FINISHED },
        Except.ok false⟩ := by
    unfold ask_tool
    simp [hv, hc]
  rw [hform]
  refine ⟨rfl, rfl, rfl, ?_, ?_⟩
  · simp only [AgentCore.add_message, List.countP_append,
      prompt_append_assistant_countP, List.countP_cons, List.countP_nil,
      Message.assistant_message]
    simp
  · simp only [AgentCore.add_message]
    rw [List.getLast?_concat]

/-- Counterexample to C5 as stated: a ValueError whose cause is the token
limit hits `except ValueError: raise` first (toolcall.py lines 204-205) and
is propagated unchanged — no assistant message, no FINISHED transition. -/
theorem C5_value_error_propagates :
    ask_tool c3_env (Except.error ⟨true, true, "context window exceeded"⟩)
        c4_helper c4_agent =
      ⟨c4_helper, c4_agent,
        Except.error ⟨true, true, "context window exceeded"⟩⟩ := rfl

/-- Witness for C5's amended theorem at a concrete non-ValueError token-limit
failure. -/
theorem C5_token_limit_amended_witness :
    (ask_tool c3_env (Except.error ⟨false, true, "ctx"⟩) c4_helper
        c4_agent).ret = Except.ok false ∧
    (ask_tool c3_env (Except.error ⟨false, true, "ctx"⟩) c4_helper
        c4_agent).agent.state = AgentState.FINISHED :=
  ⟨(C5_token_limit_amended c3_env ⟨false, true, "ctx"⟩ c4_helper c4_agent
      rfl rfl).1,
    (C5_token_limit_amended c3_env ⟨false, true, "ctx"⟩ c4_helper c4_agent
      rfl rfl).2.1⟩

lemma execute_tool_loop_eq (env : ToolEnv) (special : List String) (M : Nat) :
    ∀ (calls : List ToolCall) (mem : List Message) (st : AgentState)
      (inv res : List String),
      execute_tool_loop env special M calls mem st inv res =
        (mem ++ (dispatch_outcome env special M calls st).1,
          (dispatch_outcome env special M calls st).2.1,
          inv ++ (dispatch_outcome env special M calls st).2.2.1,
          res ++ (dispatch_outcome env special M calls st).2.2.2) := by
  intro calls
  induction calls with
  | nil =>
    intro mem st inv res
    simp [execute_tool_loop, dispatch_outcome]
  | cons c rest ih =>
    intro mem st inv res
    simp only [execute_tool_loop, dispatch_outcome]
    rw [ih]
    simp

lemma dispatch_outcome_fst_length (env : ToolEnv) (special : List String)
    (M : Nat) :
    ∀ (calls : List ToolCall) (st : AgentState),
      (dispatch_outcome env special M calls st).1.length = calls.length := by
  intro calls
  induction calls with
  | nil => intro st; rfl
  | cons c rest ih => intro st; simp [dispatch_outcome, ih]

lemma dispatch_outcome_get (env : ToolEnv) (special : List String) (M : Nat) :
    ∀ (calls : List ToolCall) (st : AgentState) (i : Nat), i < calls.length →
      ∃ m cmd, (dispatch_outcome env special M calls st).1.get? i = some m ∧
        calls.get? i = some cmd ∧ m.role = Role.tool ∧
        m.tool_call_id = some cmd.id ∧ m.name = some cmd.function.name := by
  intro calls
  induction calls with
  | nil => intro st i hi; simp at hi
  | cons c rest ih =>
    intro st i hi
    cases i with
    | zero =>
      exact ⟨_, c, rfl, rfl, rfl, rfl, rfl⟩
    | succ j =>
      have hj : j < rest.length := by simpa using hi
      obtain ⟨m, cmd, h1, h2, h3, h4, h5⟩ :=
        ih (execute_tool_command env special c st).state j hj
      exact ⟨m, cmd, by simpa [dispatch_outcome] using h1, by simpa using h2,
        h3, h4, h5⟩

/-- C6: a non-empty batch is dispatched in order: the memory after
`execute_tool` is the old memory followed by exactly one tool-role Message
per call, in batch order, and the i-th appended Message carries the
tool_call_id (and tool name) of the i-th call. -/
theorem C6_dispatch_ordering (env : ToolEnv) (h : ToolCallHelper)
    (mem : List Message) (st : AgentState) (hne : h.tool_calls ≠ []) :
    (execute_tool env h mem st).memory =
      mem ++ (dispatch_outcome env h.special_tool_names h.max_observe
        h.tool_calls st).1 ∧
    (dispatch_outcome env h.special_tool_names h.max_observe
        h.tool_calls st).1.length = h.tool_calls.length ∧
    ∀ i, i < h.tool_calls.length →
      ∃ m cmd,
        (dispatch_outcome env h.special_tool_names h.max_observe
          h.tool_calls st).1.get? i = some m ∧
        h.tool_calls.get? i = some cmd ∧ m.role = Role.tool ∧
        m.tool_call_id = some cmd.id ∧ m.name = some cmd.function.name := by
  refine ⟨?_, dispatch_outcome_fst_length _ _ _ _ _,
    fun i hi => dispatch_outcome_get _ _ _ _ _ i hi⟩
  unfold execute_tool
  rw [if_neg (by simp [List.isEmpty_iff, hne])]
  rw [execute_tool_loop_eq]

/-- Witness for C6 at the two-call fixture batch. -/
theorem C6_dispatch_ordering_witness :
    (execute_tool c2_env c2_helper [] AgentState.RUNNING).memory =
      [] ++ (dispatch_outcome c2_env ["terminate"] 10000 [c2_term, c2_echo]
        AgentState.RUNNING).1 :=
  (C6_dispatch_ordering c2_env c2_helper [] AgentState.RUNNING (by decide)).1

lemma countP_content_le_one (v : Option String) :
    ∀ l : List Message, l.Pairwise (fun x y => x.content ≠ y.content) →
      l.countP (fun m => decide (m.content = v)) ≤ 1 := by
  intro l
  induction l with
  | nil => intro _; simp
  | cons x xs ih =>
    intro hp
    rcases List.pairwise_cons.mp hp with ⟨hx, hxs⟩
    by_cases hxv : x.content = v
    · have hzero : xs.countP (fun m => decide (m.content = v)) = 0 := by
        rw [List.countP_eq_zero]
        intro m hm
        simp only [decide_eq_true_eq]
        intro hmv
        exact hx m hm (hxv.trans hmv.symm)
      rw [List.countP_cons]
      simp [hzero, hxv]
    · rw [List.countP_cons]
      simpa [hxv] using ih hxs

lemma countP_role_content (v : Option String) (l : List Message) :
    l.countP (fun m => decide (m.role = Role.assistant ∧ m.content = v)) =
      (l.filter (fun m => decide (m.role = Role.assistant))).countP
        (fun m => decide (m.content = v)) := by
  rw [List.countP_filter]
  congr 1
  funext m
  by_cases h1 : m.role = Role.assistant <;> by_cases h2 : m.content = v <;>
    simp [h1, h2]

lemma is_stuck_true_of_triple (a : AgentCore) (pre : List Message)
    (m1 m2 m3 : Message) (s : String)
    (hthr : a.duplicate_threshold = 2)
    (hm : a.memory = pre ++ [m1, m2, m3])
    (h1 : m1.role = Role.assistant) (h2 : m2.role = Role.assistant)
    (h3 : m3.role = Role.assistant)
    (hc1 : m1.content = some s) (hc2 : m2.content = some s)
    (hc3 : m3.content = some s) (hs : s ≠ "") :
    is_stuck a = true := by
  unfold is_stuck
  rw [hm]
  rw [if_neg (by simp)]
  rw [show pre ++ [m1, m2, m3] = (pre ++ [m1, m2]) ++ [m3] from by simp]
  simp only [List.getLast?_concat, List.dropLast_concat]
  rw [hc3, hthr]
  have htr : optTruthy (some s) = true := by simp [optTruthy, hs]
  simp only [htr, if_true]
  rw [decide_eq_true_eq]
  simp only [List.countP_append, List.countP_cons, List.countP_nil]
  have e1 : decide (m1.role = Role.assistant ∧ m1.content = some s) = true := by
    simp [h1, hc1]
  have e2 : decide (m2.role = Role.assistant ∧ m2.content = some s) = true := by
    simp [h2, hc2]
  simp only [e1, e2]
  simp

lemma is_stuck_false_of_distinct (a : AgentCore)
    (hthr : a.duplicate_threshold = 2)
    (hp : (a.memory.filter (fun m => decide (m.role = Role.assistant))).Pairwise
      (fun x y => x.content ≠ y.content)) :
    is_stuck a = false := by
  unfold is_stuck
  by_cases hlen : a.memory.length < 2
  · simp [hlen]
  · cases hlast : a.memory.getLast? with
    | none => rw [if_neg hlen]
    | some last =>
      have hdecomp : a.memory.dropLast ++ [last] = a.memory :=
        List.dropLast_append_getLast? last hlast
      rw [if_neg hlen]
      cases htr : optTruthy last.content with
      | false => simp [htr]
      | true =>
        simp only [htr, if_true]
        have hcount : a.memory.dropLast.countP
            (fun m => decide (m.role = Role.assistant ∧ m.content = last.content))
            ≤ 1 := by
          rw [countP_role_content]
          have hpd : (a.memory.dropLast.filter
              (fun m => decide (m.role = Role.assistant))).Pairwise
              (fun x y => x.content ≠ y.content) := by
            have hsub : (a.memory.dropLast.filter
                (fun m => decide (m.role = Role.assistant))).Sublist
                (a.memory.filter (fun m => decide (m.role = Role.assistant))) :=
              List.Sublist.filter _ (List.dropLast_sublist a.memory)
            exact hp.sublist hsub
          by_cases hrole : last.role = Role.assistant
          · -- the latest message is itself in the assistant filter of Memory;
            -- pairwise distinctness over the decomposition gives that no
            -- earlier assistant shares its content
            have hfil : a.memory.filter
                (fun m => decide (m.role = Role.assistant)) =
                a.memory.dropLast.filter
                  (fun m => decide (m.role = Role.assistant)) ++ [last] := by
              rw [← hdecomp, List.filter_append]
              simp [hrole]
            rw [hfil] at hp
            rcases List.pairwise_append.mp hp with ⟨_, _, hcross⟩
            have hzero : (a.memory.dropLast.filter
                (fun m => decide (m.role = Role.assistant))).countP
                (fun m => decide (m.content = last.content)) = 0 := by
              rw [List.countP_eq_zero]
              intro m hmem
              simp only [decide_eq_true_eq]
              intro hmc
              exact (hcross m hmem last (List.mem_singleton_self last)) hmc
            omega
          · exact countP_content_le_one last.content _ hpd
        rw [hthr]
        simp only [decide_eq_false_iff_not]
        omega

lemma is_stuck_false_of_falsy (a : AgentCore) (m : Message)
    (hlast : a.memory.getLast? = some m)
    (hfalsy : optTruthy m.content = false) :
    is_stuck a = false := by
  unfold is_stuck
  by_cases hlen : a.memory.length < 2
  · simp [hlen]
  · rw [if_neg hlen, hlast]
    simp [hfalsy]

/-- C9: with duplicate threshold 2, `is_stuck` is true whenever the last
three messages are assistant messages with identical non-empty content; it
is false when the assistant messages of Memory have pairwise distinct
contents; and it is false whenever the latest message's content is empty or
absent. -/
theorem C9_stuck_detection :
    (∀ (a : AgentCore) (pre : List Message) (m1 m2 m3 : Message) (s : String),
      a.duplicate_threshold = 2 → a.memory = pre ++ [m1, m2, m3] →
      m1.role = Role.assistant → m2.role = Role.assistant →
      m3.role = Role.assistant → m1.content = some s → m2.content = some s →
      m3.content = some s → s ≠ "" → is_stuck a = true) ∧
    (∀ a : AgentCore, a.duplicate_threshold = 2 →
      (a.memory.filter (fun m => decide (m.role = Role.assistant))).Pairwise
        (fun x y => x.content ≠ y.content) →
      is_stuck a = false) ∧
    (∀ (a : AgentCore) (m : Message), a.memory.getLast? = some m →
      optTruthy m.content = false → is_stuck a = false) :=
  ⟨fun a pre m1 m2 m3 s hthr hm h1 h2 h3 hc1 hc2 hc3 hs =>
      is_stuck_true_of_triple a pre m1 m2 m3 s hthr hm h1 h2 h3 hc1 hc2 hc3 hs,
    fun a hthr hp => is_stuck_false_of_distinct a hthr hp,
    fun a m hlast hfalsy => is_stuck_false_of_falsy a m hlast hfalsy⟩

/-- Witness for C9 at three concrete memories: three identical assistant
replies, three distinct ones, and an absent latest content. -/
theorem C9_stuck_detection_witness :
    is_stuck ⟨AgentState.IDLE, [Message.user_message "hi",
        Message.assistant_message "x", Message.assistant_message "x",
        Message.assistant_message "x"], 0, 5, none, 2⟩ = true ∧
    is_stuck ⟨AgentState.IDLE, [Message.assistant_message "x",
        Message.assistant_message "y", Message.assistant_message "z"],
        0, 5, none, 2⟩ = false ∧
    is_stuck ⟨AgentState.IDLE, [Message.assistant_message "x",
        ⟨Role.assistant, none, [], none, none, none⟩], 0, 5, none, 2⟩
      = false :=
  ⟨C9_stuck_detection.1 _ [Message.user_message "hi"] _ _ _ "x" rfl rfl
      rfl rfl rfl rfl rfl rfl (by decide),
    C9_stuck_detection.2.1 _ rfl (by decide),
    C9_stuck_detection.2.2
      ⟨AgentState.IDLE, [Message.assistant_message "x",
        ⟨Role.assistant, none, [], none, none, none⟩], 0, 5, none, 2⟩
      ⟨Role.assistant, none, [], none, none, none⟩ (by decide) rfl⟩

lemma execute_tool_command_finished (env : ToolEnv) (special : List String)
    (cmd : ToolCall) :
    (execute_tool_command env special cmd AgentState.FINISHED).state =
      AgentState.FINISHED := by
  unfold execute_tool_command
  repeat' split
  all_goals try rfl
  all_goals simp [ite_self]
  all_goals repeat' split
  all_goals rfl

lemma execute_tool_command_special_state (env : ToolEnv)
    (special : List String) (cmd : ToolCall) (st : AgentState)
    (hs : is_special_tool special cmd.function.name = true)
    (h1 : cmd.function.name ≠ "")
    (h2 : env.tool_names.contains cmd.function.name = true)
    (h3 : cmd.function.arguments ≠ "" →
      env.validJson cmd.function.arguments = true)
    (r : ToolResultVal)
    (h4 : env.run cmd.function.name
        (if cmd.function.arguments = "" then "\x7b\x7d"
         else cmd.function.arguments) = ToolOutcome.ok r) :
    (execute_tool_command env special cmd st).state = AgentState.FINISHED ∧
    (execute_tool_command env special cmd st).invoked =
      [cmd.function.name] := by
  unfold execute_tool_command
  rw [if_neg h1, if_neg (by rw [h2]; simp)]
  by_cases ha : cmd.function.arguments = ""
  · rw [if_pos ha] at h4
    simp only [ha, ite_true, if_pos rfl]
    rw [h4]
    simp [hs]
  · rw [if_neg ha] at h4
    have hv := h3 ha
    simp only [ha, ite_false, hv]
    rw [if_neg (by simp)]
    rw [h4]
    simp [hs]

lemma execute_tool_loop_state_finished (env : ToolEnv)
    (special : List String) (M : Nat) :
    ∀ (calls : List ToolCall) (mem : List Message) (inv res : List String),
      (execute_tool_loop env special M calls mem AgentState.FINISHED
        inv res).2.1 = AgentState.FINISHED := by
  intro calls
  induction calls with
  | nil => intro mem inv res; rfl
  | cons c rest ih =>
    intro mem inv res
    simp only [execute_tool_loop]
    rw [execute_tool_command_finished]
    exact ih _ _ _

lemma runLoop_finished (stepFn : AgentCore → AgentCore × Except RunError String)
    (fuel : Nat) (a : AgentCore) (acc : List String)
    (hf : a.state = AgentState.FINISHED) :
    runLoop stepFn fuel a acc = (a, Except.ok acc) := by
  cases fuel with
  | zero => rfl
  | succ k =>
    unfold runLoop
    rw [if_neg (by simp [hf])]

/-- C2 under correction: for a batch whose first call is a terminating tool
that resolves, parses and executes successfully, the FINISHED transition is
complete by the time `execute_tool_command` returns — that is, before the
call's observation is appended to Memory (the first observed configuration
pairs the unchanged Memory with FINISHED) — every call of the batch,
including those after the terminating one, is still processed with its
observation recorded in order, the batch ends FINISHED, and the run loop's
next iteration check then stops without running another step. -/
theorem C2_finish_semantics (env : ToolEnv) (h : ToolCallHelper)
    (cmd : ToolCall) (rest : List ToolCall) (mem : List Message)
    (st : AgentState) (r : ToolResultVal)
    (hcalls : h.tool_calls = cmd :: rest)
    (hs : is_special_tool h.special_tool_names cmd.function.name = true)
    (h1 : cmd.function.name ≠ "")
    (h2 : env.tool_names.contains cmd.function.name = true)
    (h3 : cmd.function.arguments ≠ "" →
      env.validJson cmd.function.arguments = true)
    (h4 : env.run cmd.function.name
        (if cmd.function.arguments = "" then "\x7b\x7d"
         else cmd.function.arguments) = ToolOutcome.ok r) :
    (execute_tool_configs env h.special_tool_names h.max_observe
        (cmd :: rest) ⟨mem, st⟩).head? =
      some ⟨mem, AgentState.FINISHED⟩ ∧
    (execute_tool env h mem st).memory =
      mem ++ (dispatch_outcome env h.special_tool_names h.max_observe
        (cmd :: rest) st).1 ∧
    (dispatch_outcome env h.special_tool_names h.max_observe
        (cmd :: rest) st).1.length = rest.length + 1 ∧
    (execute_tool env h mem st).state = AgentState.FINISHED ∧
    (∀ (stepFn : AgentCore → AgentCore × Except RunError String)
      (fuel : Nat) (a : AgentCore) (acc : List String),
      a.state = AgentState.FINISHED →
      runLoop stepFn fuel a acc = (a, Except.ok acc)) := by
  obtain ⟨hstate, _⟩ := execute_tool_command_special_state env
    h.special_tool_names cmd st hs h1 h2 h3 r h4
  refine ⟨?_, ?_, ?_, ?_,
    fun stepFn fuel a acc hf => runLoop_finished stepFn fuel a acc hf⟩
  · simp only [execute_tool_configs, List.head?_cons]
    rw [hstate]
  · unfold execute_tool
    rw [hcalls]
    rw [if_neg (by simp)]
    rw [execute_tool_loop_eq]
  · rw [dispatch_outcome_fst_length]
    simp
  · unfold execute_tool
    rw [hcalls]
    rw [if_neg (by simp)]
    show (execute_tool_loop env h.special_tool_names h.max_observe
      (cmd :: rest) mem st [] []).2.1 = AgentState.FINISHED
    simp only [execute_tool_loop]
    rw [hstate]
    exact execute_tool_loop_state_finished env h.special_tool_names
      h.max_observe rest _ _ _

/-- Counterexample to C2 as stated: in the two-call fixture batch the very
first configuration the dispatcher reaches — right after the terminating
call's `execute_tool_command` returns and before any Memory append — already
has state FINISHED while Memory is still empty, so the FINISHED transition
does not happen after the observation is appended. -/
theorem C2_finished_before_append :
    (execute_tool_configs c2_env ["terminate"] 10000 [c2_term, c2_echo]
        ⟨[], AgentState.RUNNING⟩).head? =
      some ⟨[], AgentState.FINISHED⟩ := by decide

/-- Witness for C2's amended theorem at the two-call fixture batch. -/
theorem C2_finish_semantics_witness :
    (execute_tool c2_env c2_helper [] AgentState.RUNNING).state =
      AgentState.FINISHED :=
  (C2_finish_semantics c2_env c2_helper c2_term [c2_echo] []
    AgentState.RUNNING ⟨"done terminate", true, none⟩ rfl (by decide)
    (by decide) (by decide) (fun hne => absurd rfl hne) rfl).2.2.2.1

lemma ask_tool_required_empty (env : ToolEnv) (response : LLMResponse)
    (h : ToolCallHelper) (a : AgentCore)
    (hreq : h.tool_choices = ToolChoice.required)
    (hempty : response.tool_calls = []) :
    ask_tool env (Except.ok response) h a =
      ⟨{ h with tool_calls := [] },
        (prompt_append a).add_message
          (Message.assistant_message response.content),
        Except.ok true⟩ := by
  unfold ask_tool
  simp [hreq, hempty]

lemma step_required_empty (response : LLMResponse) (env : ToolEnv)
    (h : ToolCallHelper) (a : AgentCore)
    (hreq : h.tool_choices = ToolChoice.required)
    (hempty : response.tool_calls = []) :
    step (Except.ok response) env false h a =
      ⟨{ h with tool_calls := [] },
        (prompt_append a).add_message
          (Message.assistant_message response.content),
        Except.error (RunError.valueError TOOL_CALL_REQUIRED)⟩ := by
  unfold step
  rw [ask_tool_required_empty env response h a hreq hempty]
  simp only [Bool.not_true, Bool.not_false, Bool.false_and]
  unfold execute_tool
  simp [hreq]
  rfl

lemma runLoop_step_error
    (stepFn : AgentCore → AgentCore × Except RunError String)
    (fuel : Nat) (a : AgentCore) (acc : List String) (a2 : AgentCore)
    (e : RunError)
    (hcond : a.current_step < a.max_steps)
    (hnf : a.state ≠ AgentState.FINISHED)
    (hstep : stepFn { a with current_step := a.current_step + 1 } =
      (a2, Except.error e)) :
    runLoop stepFn (fuel + 1) a acc = (a2, Except.error e) := by
  unfold runLoop
  rw [if_pos ⟨hcond, hnf⟩]
  dsimp only
  rw [hstep]

lemma state_context_error (a : AgentCore) (ns : AgentState)
    (body : AgentCore → AgentCore × Except RunError (List String))
    (a2 : AgentCore) (e : RunError)
    (hbody : body { a with state := ns } = (a2, Except.error e)) :
    state_context a ns body = ({ a2 with state := a.state }, Except.error e)
    := by
  unfold state_context
  dsimp only
  rw [hbody]

lemma request_append_current_step (a : AgentCore) (request : Option String) :
    (request_append a request).current_step = a.current_step := by
  unfold request_append
  cases request with
  | none => rfl
  | some r => by_cases hr : r != "" <;> simp [hr, AgentCore.add_message]

lemma request_append_max_steps (a : AgentCore) (request : Option String) :
    (request_append a request).max_steps = a.max_steps := by
  unfold request_append
  cases request with
  | none => rfl
  | some r => by_cases hr : r != "" <;> simp [hr, AgentCore.add_message]

lemma request_append_tool_countP (a : AgentCore) (request : Option String) :
    (request_append a request).memory.countP
        (fun m => decide (m.role = Role.tool)) =
      a.memory.countP (fun m => decide (m.role = Role.tool)) := by
  unfold request_append
  cases request with
  | none => rfl
  | some r =>
    by_cases hr : r != "" <;>
      simp [hr, AgentCore.add_message, List.countP_append, List.countP_cons,
        Message.user_message]

lemma prompt_append_current_step (a : AgentCore) :
    (prompt_append a).current_step = a.current_step := by
  unfold prompt_append
  cases a.next_step_prompt with
  | none => rfl
  | some p => by_cases hp : p != "" <;> simp [hp, AgentCore.add_message]

lemma prompt_append_tool_countP (a : AgentCore) :
    (prompt_append a).memory.countP (fun m => decide (m.role = Role.tool)) =
      a.memory.countP (fun m => decide (m.role = Role.tool)) := by
  unfold prompt_append
  cases a.next_step_prompt with
  | none => rfl
  | some p =>
    by_cases hp : p != "" <;>
      simp [hp, AgentCore.add_message, List.countP_append, List.countP_cons,
        Message.user_message]

/-- C3 under correction: an empty tool-call batch under the "required" policy
makes `execute_tool` raise ValueError(TOOL_CALL_REQUIRED) without appending
any Message and without touching the state; at run level the exception
propagates out of the step and out of `run` — the run aborts after exactly
one step, the scoped transition reverts the observable state to the IDLE it
started from, and no tool-role Message was appended. -/
theorem C3_required_empty_amended (env : ToolEnv) (h : ToolCallHelper)
    (response : LLMResponse) (a : AgentCore) (request : Option String)
    (hreq : h.tool_choices = ToolChoice.required)
    (hempty : response.tool_calls = [])
    (hidle : a.state = AgentState.IDLE)
    (hstep : a.current_step < a.max_steps) :
    (∀ (mem : List Message) (st : AgentState),
      execute_tool env { h with tool_calls := [] } mem st =
        ⟨mem, st, [],
          Except.error (RunError.valueError TOOL_CALL_REQUIRED)⟩) ∧
    (run (toolcall_step (Except.ok response) env false h) a request).2 =
      Except.error (RunError.valueError TOOL_CALL_REQUIRED) ∧
    (run (toolcall_step (Except.ok response) env false h) a request).1.state =
      AgentState.IDLE ∧
    (run (toolcall_step (Except.ok response) env false h) a
        request).1.current_step = a.current_step + 1 ∧
    (run (toolcall_step (Except.ok response) env false h) a
        request).1.memory.countP (fun m => decide (m.role = Role.tool)) =
      a.memory.countP (fun m => decide (m.role = Role.tool)) := by
  have hdisp : ∀ (mem : List Message) (st : AgentState),
      execute_tool env { h with tool_calls := [] } mem st =
        ⟨mem, st, [],
          Except.error (RunError.valueError TOOL_CALL_REQUIRED)⟩ := by
    intro mem st
    unfold execute_tool
    simp [hreq]
  have hstep1 : toolcall_step (Except.ok response) env false h
      { { request_append a request with state := AgentState.RUNNING } with
        current_step :=
          ({ request_append a request with
            state := AgentState.RUNNING } : AgentCore).current_step + 1 } =
      ((prompt_append { request_append a request with
          state := AgentState.RUNNING,
          current_step := (request_append a request).current_step + 1
        }).add_message (Message.assistant_message response.content),
        Except.error (RunError.valueError TOOL_CALL_REQUIRED)) := by
    unfold toolcall_step
    rw [step_required_empty response env h _ hreq hempty]
  have hloop : runLoop (toolcall_step (Except.ok response) env false h)
      a.max_steps { request_append a request with
        state := AgentState.RUNNING } [] =
      ((prompt_append { request_append a request with
          state := AgentState.RUNNING,
          current_step := (request_append a request).current_step + 1
        }).add_message (Message.assistant_message response.content),
        Except.error (RunError.valueError TOOL_CALL_REQUIRED)) := by
    obtain ⟨k, hk⟩ : ∃ k, a.max_steps = k + 1 :=
      ⟨a.max_steps - 1, by omega⟩
    rw [hk]
    exact runLoop_step_error _ k _ [] _ _
      (by simpa [request_append_current_step, request_append_max_steps]
        using hstep)
      (by simp) hstep1
  have hb : run_body (toolcall_step (Except.ok response) env false h)
      { request_append a request with state := AgentState.RUNNING } =
      ((prompt_append { request_append a request with
          state := AgentState.RUNNING,
          current_step := (request_append a request).current_step + 1
        }).add_message (Message.assistant_message response.content),
        Except.error (RunError.valueError TOOL_CALL_REQUIRED)) := by
    unfold run_body
    rw [show ({ request_append a request with
        state := AgentState.RUNNING } : AgentCore).max_steps = a.max_steps
      from request_append_max_steps a request]
    rw [hloop]
  have hrun : run (toolcall_step (Except.ok response) env false h) a request =
      ({ (prompt_append { request_append a request with
            state := AgentState.RUNNING,
            current_step := (request_append a request).current_step + 1
          }).add_message (Message.assistant_message response.content) with
          state := a.state },
        Except.error (RunError.valueError TOOL_CALL_REQUIRED)) := by
    unfold run
    rw [if_neg (by simp [hidle])]
    dsimp only
    rw [state_context_error _ _ _ _ _ hb]
    rw [request_append_state]
    rfl
  refine ⟨hdisp, ?_, ?_, ?_, ?_⟩
  · rw [hrun]
  · rw [hrun, hidle]
  · rw [hrun]
    simp [AgentCore.add_message, prompt_append_current_step,
      request_append_current_step]
  · rw [hrun]
    simp only [AgentCore.add_message]
    simp only [List.countP_append, List.countP_cons, List.countP_nil]
    rw [prompt_append_tool_countP, request_append_tool_countP]
    simp [Message.assistant_message]

/-- Counterexample to C3 as stated: at the concrete fixture run, the empty
batch under "required" does not leave the run proceeding in RUNNING — `run`
aborts with the propagated ValueError after step 1 of 3 and the observable
state afterwards is IDLE. -/
theorem C3_required_empty_counterexample :
    (run (toolcall_step (Except.ok c3_resp) c3_env false c3_helper) c3_agent
        (some "solve")).2 =
      Except.error (RunError.valueError TOOL_CALL_REQUIRED) ∧
    (run (toolcall_step (Except.ok c3_resp) c3_env false c3_helper) c3_agent
        (some "solve")).1.current_step = 1 ∧
    (run (toolcall_step (Except.ok c3_resp) c3_env false c3_helper) c3_agent
        (some "solve")).1.state = AgentState.IDLE := by decide

/-- Witness for C3's amended theorem at the concrete fixtures. -/
theorem C3_required_empty_amended_witness :
    execute_tool c3_env c3_helper [] AgentState.RUNNING =
      ⟨[], AgentState.RUNNING, [],
        Except.error (RunError.valueError TOOL_CALL_REQUIRED)⟩ :=
  (C3_required_empty_amended c3_env c3_helper c3_resp c3_agent (some "solve")
    rfl rfl rfl (by decide)).1 [] AgentState.RUNNING

/-- Two hosts "A" and "B", each exposing a remote tool named "t" (colliding
before prefixing), connected in order into an empty extension and an empty
`available_tools` registry. -/
def c10_setup :
    MCPToolCallExtension × List (String × MCPClientTool) :=
  match add_mcp_sse ⟨[]⟩ [] "A" ["t"] with
  | Except.ok (e1, r1) =>
    (match add_mcp_sse e1 r1 "B" ["t"] with
     | Except.ok (e2, r2) => (e2, r2)
     | Except.error _ => (e1, r1))
  | Except.error _ => (⟨[]⟩, [])

lemma lookup_eq_none_of_keys_ne (cid : String) :
    ∀ l : List (String × MCPClients), (∀ p ∈ l, p.1 ≠ cid) →
      l.lookup cid = none := by
  intro l
  induction l with
  | nil => intro _; rfl
  | cons p t ih =>
    intro hall
    cases p with
    | mk k v =>
      have hk : (cid == k) = false :=
        beq_eq_false_iff_ne.mpr
          (Ne.symm (hall (k, v) (List.mem_cons_self _ _)))
      simp only [List.lookup, hk]
      exact ih (fun q hq => hall q (List.mem_cons_of_mem _ hq))

lemma lookup_eraseP_none (cid : String) :
    ∀ l : List (String × MCPClients), (l.map Prod.fst).Nodup →
      (l.eraseP (fun p => p.1 == cid)).lookup cid = none := by
  intro l
  induction l with
  | nil => intro _; rfl
  | cons p t ih =>
    intro hnd
    rw [List.map_cons] at hnd
    rcases List.nodup_cons.mp hnd with ⟨h1, h2⟩
    by_cases hp : (p.1 == cid) = true
    · simp only [List.eraseP_cons, hp, cond_true]
      have hpe : p.1 = cid := beq_iff_eq.mp hp
      apply lookup_eq_none_of_keys_ne
      intro q hq hqc
      apply h1
      rw [show p.1 = q.1 from hpe.trans hqc.symm]
      exact List.mem_map_of_mem Prod.fst hq
    · have hpb : (p.1 == cid) = false := by simpa using hp
      simp only [List.eraseP_cons, hpb, cond_false]
      cases p with
      | mk k v =>
        have hne : k ≠ cid := by simpa using hpb
        have hk : (cid == k) = false := beq_eq_false_iff_ne.mpr (Ne.symm hne)
        simp only [List.lookup, hk]
        exact ih h2

/-- C10 under correction: removing a connected host returns true and erases
exactly its entry from the client dictionary; removing it again is a no-op
returning false; every other host's entry — even one whose unprefixed tool
names collide — survives untouched; and `disconnect` clears exactly the
disconnected client's own collection and is idempotent. The host's entries
in the shared `available_tools` registry are not removed (see the
counterexample). -/
theorem C10_remove_client_amended (ext : MCPToolCallExtension) (cid : String)
    (c : MCPClients)
    (hnodup : (ext.clients.map Prod.fst).Nodup)
    (hlook : ext.clients.lookup cid = some c) :
    (remove_client ext cid).2 = true ∧
    (remove_client ext cid).1.clients =
      ext.clients.eraseP (fun p => p.1 == cid) ∧
    remove_client (remove_client ext cid).1 cid =
      ((remove_client ext cid).1, false) ∧
    (∀ p ∈ ext.clients, p.1 ≠ cid →
      p ∈ (remove_client ext cid).1.clients) ∧
    (c.session = true →
      c.disconnect = { c with session := false, tool_map := [] }) ∧
    c.disconnect.disconnect = c.disconnect := by
  have hrm : remove_client ext cid =
      (⟨ext.clients.eraseP (fun p => p.1 == cid)⟩, true) := by
    unfold remove_client
    rw [hlook]
  refine ⟨by rw [hrm], by rw [hrm], ?_, ?_, ?_, ?_⟩
  · rw [hrm]
    unfold remove_client
    rw [lookup_eraseP_none cid ext.clients hnodup]
  · intro p hp hpne
    rw [hrm]
    exact (List.mem_eraseP_of_neg (by simp [hpne])).mpr hp
  · intro hs
    unfold MCPClients.disconnect
    rw [if_pos hs]
  · unfold MCPClients.disconnect
    by_cases hs : c.session = true
    · simp [hs]
    · simp [hs]

/-- Counterexample to C10 as stated: after connecting hosts "A" and "B" (both
exposing a tool "t") and disconnecting "A" (which returns true and empties
host A's client entry), the shared `available_tools` registry — which
`remove_client` and `disconnect` never touch (neither takes it as input, see
toolcall.py lines 103-115 and mcp_sandbox.py lines 390-397) — still holds
host A's registration "A-t": the first disconnection does not remove the
host's tools from the tool registry. -/
theorem C10_registry_not_purged :
    (remove_client c10_setup.1 "A").2 = true ∧
    (remove_client c10_setup.1 "A").1.clients.lookup "A" = none ∧
    c10_setup.2.lookup "A-t" = some ⟨"A-t", "A"⟩ := by decide

/-- Witness for C10's amended theorem at the concrete two-host setup with
colliding unprefixed tool names. -/
theorem C10_remove_client_amended_witness :
    remove_client (remove_client c10_setup.1 "A").1 "A" =
      ((remove_client c10_setup.1 "A").1, false) :=
  (C10_remove_client_amended c10_setup.1 "A"
    ⟨"A", true, [("A-t", ⟨"A-t", "A"⟩)]⟩ (by decide) (by decide)).2.2.1

end OpenManus
